import Mathlib

/-!
Verification of the Mol-Bhav front-end negotiation client.

The definitions below are a shallow embedding of the TypeScript source:
the shared types (`types.ts`), the zustand store (`stores/negotiation.ts`),
the API client (`lib/api.ts`), and the negotiation components
(`PriceInput`, `FairnessMeter`, `DigitalFlounce`, `NegotiationDrawer`).
JavaScript numbers are modelled as rationals; where NaN / infinity
semantics matter (`parseFloat` results in `PriceInput.handleSubmit`) an
explicit `JSNum` type carries the special values.
-/

namespace MolBhav

/-- `NegotiationState` union type from `types.ts`. -/
inductive NegotiationState where
  | idle
  | proposing
  | responding
  | agreed
  | broken
  | timed_out
deriving DecidableEq, Repr

/-- `Language` union type from `types.ts`: "en" | "hi" | "ta" | "te" | "mr". -/
inductive Language where
  | en
  | hi
  | ta
  | te
  | mr
deriving DecidableEq, Repr

/-- The wire code of a language, i.e. the key used in `LANGUAGE_LABELS`
and in the persisted localStorage value. -/
def Language.code : Language → String
  | .en => "en"
  | .hi => "hi"
  | .ta => "ta"
  | .te => "te"
  | .mr => "mr"

/-- `LANGUAGE_LABELS` from `types.ts`. -/
def LANGUAGE_LABELS : Language → String
  | .en => "English"
  | .hi => "हिन्दी"
  | .ta => "தமிழ்"
  | .te => "తెలుగు"
  | .mr => "मराठी"

/-- The key list of `LANGUAGE_LABELS` in declaration order, as iterated by
`Object.entries(LANGUAGE_LABELS)` in `LanguageToggle`. -/
def languageKeys : List Language := [.en, .hi, .ta, .te, .mr]

/-- Chat actor union type from `types.ts`. -/
inductive Actor where
  | buyer
  | seller
deriving DecidableEq, Repr

/-- Chat message status union type from `types.ts`. -/
inductive MsgStatus where
  | sending
  | sent
  | error
deriving DecidableEq, Repr

/-- `ChatMessage` from `types.ts` (the `timestamp : Date` field is dropped:
no claim depends on wall-clock time; `metadata` is kept abstract as a
key-value list). -/
structure ChatMessage where
  id : String
  actor : Actor
  text : String
  price : ℚ
  tactic : String
  metadata : List (String × String)
  status : MsgStatus
deriving DecidableEq, Repr

/-- `NegotiationResponse` from `types.ts` — the session_response record the
frontend consumes.  Its fields are exactly those of the TypeScript
interface; in particular there is no floor field. -/
structure NegotiationResponse where
  session_id : String
  session_token : String
  message : String
  current_price : ℚ
  anchor_price : ℚ
  state : NegotiationState
  tactic : String
  sentiment : String
  round : ℕ
  max_rounds : ℕ
  quote_ttl_seconds : ℕ
  agreed_price : Option ℚ
  metadata : List (String × String)
deriving DecidableEq, Repr

/-- The zustand store state from `stores/negotiation.ts` (data fields only;
the actions are modelled as functions on this structure). -/
structure NegotiationStore where
  sessionId : Option String
  sessionToken : Option String
  productId : Option String
  productName : String
  anchorPrice : ℚ
  currentPrice : ℚ
  agreedPrice : Option ℚ
  state : Option NegotiationState
  tactic : String
  round : ℕ
  maxRounds : ℕ
  messages : List ChatMessage
  isLoading : Bool
  language : Language
  flounceUsed : Bool
  drawerOpen : Bool
deriving DecidableEq, Repr

/-- The initial store state (`create` initialiser in `negotiation.ts`),
parameterised by the persisted language. -/
def initialStore (lang : Language) : NegotiationStore :=
  { sessionId := none
    sessionToken := none
    productId := none
    productName := ""
    anchorPrice := 0
    currentPrice := 0
    agreedPrice := none
    state := none
    tactic := ""
    round := 0
    maxRounds := 15
    messages := []
    isLoading := false
    language := lang
    flounceUsed := false
    drawerOpen := false }

/-! ### FairnessMeter (`components/negotiation/FairnessMeter.tsx`) -/

/-- One entry of the `ZONES` array in `FairnessMeter.tsx`.  The TypeScript
field names `from`/`to` are Lean keywords, so they are rendered as
`zfrom`/`zto`. -/
structure Zone where
  label : String
  color : String
  zfrom : ℚ
  zto : ℚ
deriving DecidableEq, Repr

/-- The `ZONES` constant from `FairnessMeter.tsx`. -/
def ZONES : List Zone :=
  [ { label := "Too Low", color := "bg-red-500", zfrom := 0, zto := 25 }
  , { label := "Getting Warmer", color := "bg-yellow-500", zfrom := 25, zto := 55 }
  , { label := "Fair Deal", color := "bg-green-500", zfrom := 55, zto := 85 }
  , { label := "Shop Price", color := "bg-blue-500", zfrom := 85, zto := 100 } ]

/-- The pointer percentage computed in `FairnessMeter`:
`range > 0 ? Math.max(0, Math.min(100, ((currentPrice - visualFloor) / range) * 100)) : 50`
with `visualFloor = anchorPrice * visualFloorPercent` and
`range = anchorPrice - visualFloor`. -/
def fairnessPercentage (anchorPrice currentPrice visualFloorPercent : ℚ) : ℚ :=
  let visualFloor := anchorPrice * visualFloorPercent
  let range := anchorPrice - visualFloor
  if 0 < range then
    max 0 (min 100 ((currentPrice - visualFloor) / range * 100))
  else 50

/-- `ZONES.find((z) => percentage >= z.from && percentage < z.to) || ZONES[0]`
from `FairnessMeter`. -/
def activeZone (percentage : ℚ) : Zone :=
  (ZONES.find? fun z => decide (z.zfrom ≤ percentage) && decide (percentage < z.zto)).getD
    { label := "Too Low", color := "bg-red-500", zfrom := 0, zto := 25 }

/-- Everything the FairnessMeter renders that depends on prices: the left
bound label (`formatPrice(visualFloor)`), the right bound label
(`formatPrice(anchorPrice)`), the pointer position and the active zone. -/
structure MeterView where
  lowerBound : ℚ
  upperBound : ℚ
  percentage : ℚ
  zoneLabel : String
deriving DecidableEq, Repr

/-- The rendered state of `FairnessMeter` for given props
(`anchorPrice`, `visualFloorPercent`, defaulting to 0.6) and store
`currentPrice`. -/
def fairnessMeterView (anchorPrice currentPrice visualFloorPercent : ℚ) : MeterView :=
  let visualFloor := anchorPrice * visualFloorPercent
  let percentage := fairnessPercentage anchorPrice currentPrice visualFloorPercent
  { lowerBound := visualFloor
    upperBound := anchorPrice
    percentage := percentage
    zoneLabel := (activeZone percentage).label }

/-- Backend negotiation session data relevant to the meter.  The claim about
floor secrecy quantifies over sessions that carry a true `floor_price`
(spec §3); the front end only ever sees `anchor_price` and
`current_price` through the `NegotiationResponse` record, which has no
floor field. -/
structure BackendSession where
  anchor_price : ℚ
  floor_price : ℚ
  current_price : ℚ
deriving DecidableEq, Repr

/-- The meter as rendered for a backend session: the drawer passes the
product anchor price as prop (default `visualFloorPercent = 0.6`) and the
store holds the session current price. -/
def meterOfSession (s : BackendSession) : MeterView :=
  fairnessMeterView s.anchor_price s.current_price (6/10)

/-! ### JavaScript numbers for `parseFloat` results -/

/-- A JavaScript `number` as produced by `parseFloat`: NaN, ±Infinity, or a
finite value (modelled as a rational). -/
inductive JSNum where
  | nan
  | posInf
  | negInf
  | finite (q : ℚ)
deriving DecidableEq, Repr

/-- JavaScript `isNaN`. -/
def JSNum.isNan : JSNum → Bool
  | .nan => true
  | _ => false

/-- JavaScript `<=` on numbers: any comparison involving NaN is false. -/
def JSNum.le : JSNum → JSNum → Bool
  | .nan, _ => false
  | _, .nan => false
  | .negInf, _ => true
  | _, .posInf => true
  | .posInf, _ => false
  | .finite _, .negInf => false
  | .finite a, .finite b => decide (a ≤ b)

/-- JavaScript `Math.round`: nearest integer, ties toward +∞. -/
def jsRound (q : ℚ) : ℤ := ⌊q + 1/2⌋

/-! ### API client (`lib/api.ts`) -/

/-- An outgoing HTTP request as assembled by `apiFetch` plus the per-call
options; only the parts the claims mention are recorded. -/
structure ApiRequest where
  method : String
  path : String
  headers : List (String × String)
  bodyPrice : Option ℚ
  bodyMessage : Option String
  bodyLanguage : Option Language
deriving DecidableEq, Repr

/-- `api.sendOffer` from `lib/api.ts`: POST to
`/api/v1/negotiate/.../offer` with the `X-Session-Token` header set to the
`sessionToken` argument. -/
def apiSendOffer (sessionId sessionToken : String) (price : ℚ)
    (message : String) (language : Language) : ApiRequest :=
  { method := "POST"
    path := "/api/v1/negotiate/" ++ sessionId ++ "/offer"
    headers := [("Content-Type", "application/json"), ("X-Session-Token", sessionToken)]
    bodyPrice := some price
    bodyMessage := some message
    bodyLanguage := some language }

/-- `api.getStatus` from `lib/api.ts`: GET with the `X-Session-Token`
header set to the `sessionToken` argument. -/
def apiGetStatus (sessionId sessionToken : String) : ApiRequest :=
  { method := "GET"
    path := "/api/v1/negotiate/" ++ sessionId ++ "/status"
    headers := [("Content-Type", "application/json"), ("X-Session-Token", sessionToken)]
    bodyPrice := none
    bodyMessage := none
    bodyLanguage := none }

/-! ### Store actions (`stores/negotiation.ts`) -/

/-- JavaScript truthiness of a nullable string (`null` and `""` are
falsy). -/
def jsTruthy : Option String → Bool
  | none => false
  | some s => !s.isEmpty

/-- `_applyResponse` from `negotiation.ts`: appends the seller chat message
and overwrites the session fields.  `msgId` stands for the `generateId()`
result used for the seller message.  Note `sessionToken` is taken from the
response only when `isStart`, and `anchorPrice` uses JavaScript
`res.anchor_price || s.anchorPrice` (0 is falsy). -/
def applyResponse (s : NegotiationStore) (res : NegotiationResponse)
    (isStart : Bool) (msgId : String) : NegotiationStore :=
  let sellerMsg : ChatMessage :=
    { id := msgId
      actor := .seller
      text := res.message
      price := res.current_price
      tactic := res.tactic
      metadata := res.metadata
      status := .sent }
  { s with
    sessionId := some res.session_id
    sessionToken := if isStart then some res.session_token else s.sessionToken
    anchorPrice := if res.anchor_price = 0 then s.anchorPrice else res.anchor_price
    currentPrice := res.current_price
    agreedPrice := res.agreed_price
    state := some res.state
    tactic := res.tactic
    round := res.round
    maxRounds := res.max_rounds
    messages := s.messages ++ [sellerMsg]
    isLoading := false }

/-- Result of the awaited `api.sendOffer` call: either a response or a
thrown `ApiError` (status code and message). -/
inductive ApiResult where
  | ok (res : NegotiationResponse)
  | err (status : ℕ) (msg : String)
deriving DecidableEq, Repr

/-- What the store function `sendOffer` did: returned immediately (no session),
completed, or re-threw the API error. -/
inductive SendOutcome where
  | noSession
  | sent (req : ApiRequest)
  | threw (req : ApiRequest) (status : ℕ) (msg : String)
deriving DecidableEq, Repr

/-- The buyer chat message constructed at the top of `sendOffer`
(`text` is `message || formatted price`; the en-IN formatting of the
fallback is abbreviated since no claim inspects it). -/
def buyerMessage (buyerId : String) (price : ℚ) (message : String) : ChatMessage :=
  { id := buyerId
    actor := .buyer
    text := if message.isEmpty then "₹" ++ toString price else message
    price := price
    tactic := ""
    metadata := []
    status := .sending }

/-- `sendOffer` from `negotiation.ts` as a state transformer.  `buyerId`
and `sellerId` stand for the two `generateId()` results; `api` is the
outcome of the awaited HTTP call (only consulted when a request is
actually made). -/
def sendOffer (s : NegotiationStore) (price : ℚ) (message : String)
    (buyerId sellerId : String) (api : ApiResult) :
    NegotiationStore × SendOutcome :=
  if jsTruthy s.sessionId && jsTruthy s.sessionToken then
    let sid := s.sessionId.getD ""
    let tok := s.sessionToken.getD ""
    let buyerMsg := buyerMessage buyerId price message
    let s1 := { s with messages := s.messages ++ [buyerMsg], isLoading := true }
    let req := apiSendOffer sid tok price message s.language
    match api with
    | .ok res =>
        let s2 := { s1 with
          messages := s1.messages.map fun m =>
            if m.id = buyerId then { m with status := .sent } else m }
        (applyResponse s2 res false sellerId, .sent req)
    | .err st em =>
        ({ s1 with
           isLoading := false
           messages := s1.messages.map fun m =>
             if m.id = buyerId then { m with status := .error } else m },
         .threw req st em)
  else (s, .noSession)

/-- `reset` from `negotiation.ts` (the `language` field is not listed in the
reset object, so it is preserved). -/
def resetStore (s : NegotiationStore) : NegotiationStore :=
  { initialStore s.language with language := s.language }

/-- `setLanguage` from `negotiation.ts`: persists the language code under
the localStorage key `mol-bhav-lang` and sets the store field.  Returns
the new store and the written localStorage value. -/
def setLanguage (s : NegotiationStore) (lang : Language) :
    NegotiationStore × Option String :=
  ({ s with language := lang }, some lang.code)

/-- `getPersistedLanguage` from `negotiation.ts`: `"en"` when `window` is
undefined (server side), otherwise
`localStorage.getItem("mol-bhav-lang") || "en"` — both `null` and the
empty string fall back to `"en"`. -/
def getPersistedLanguage (isServer : Bool) (stored : Option String) : String :=
  if isServer then "en"
  else
    match stored with
    | none => "en"
    | some v => if v.isEmpty then "en" else v

/-! ### PriceInput (`PriceInput.tsx`) -/

/-- `isTerminal` in `PriceInput`:
`state === "agreed" || state === "broken" || state === "timed_out"`. -/
def isTerminalState (st : Option NegotiationState) : Bool :=
  decide (st = some .agreed) || decide (st = some .broken) ||
    decide (st = some .timed_out)

/-- The `disabled` attributes rendered by `PriceInput`. -/
structure PriceInputView where
  messageInputDisabled : Bool
  priceInputDisabled : Bool
  submitDisabled : Bool
deriving DecidableEq, Repr

/-- The rendered `PriceInput` for a given loading flag, session state and
current `priceStr` value: `disabled = isLoading || isTerminal`; the two
inputs use `disabled`, the submit button uses `disabled || !priceStr`. -/
def priceInputView (isLoading : Bool) (st : Option NegotiationState)
    (priceStr : String) : PriceInputView :=
  let disabled := isLoading || isTerminalState st
  { messageInputDisabled := disabled
    priceInputDisabled := disabled
    submitDisabled := disabled || priceStr.isEmpty }

/-- What `handleSubmit` decided to do with the parsed price. -/
inductive SubmitAction where
  | invalidPrice
  | offer (price : JSNum)
deriving DecidableEq, Repr

/-- `handleSubmit` from `PriceInput.tsx`, taking the `parseFloat` result of
the comma-stripped price string.  The guard is
`isNaN(price) || price <= 0`: when it holds the handler toasts and
returns before touching the store or calling `sendOffer`; otherwise
`sendOffer(price, …)` is invoked. -/
def handleSubmit (s : NegotiationStore) (price : JSNum) :
    NegotiationStore × SubmitAction :=
  if price.isNan || price.le (.finite 0) then (s, .invalidPrice)
  else (s, .offer price)

/-! ### DigitalFlounce (`DigitalFlounce.tsx`) -/

/-- The walk-away offer price in `DigitalFlounce`:
`Math.round(currentPrice * 0.95)` where `currentPrice` is read from the
store. -/
def walkAwayPrice (s : NegotiationStore) : ℤ :=
  jsRound (s.currentPrice * (95/100))

/-! ### NegotiationDrawer (`NegotiationDrawer.tsx`) -/

/-- `isActive` in `NegotiationDrawer`:
`state && state !== "agreed" && state !== "broken" && state !== "timed_out"`. -/
def isActiveState (st : Option NegotiationState) : Bool :=
  match st with
  | none => false
  | some _ => !isTerminalState st

/-- The guard of the close intercept in `handleOpenChange`:
`!nextOpen && isActive && !flounceUsed`. -/
def interceptFires (nextOpen : Bool) (st : Option NegotiationState)
    (flounceUsed : Bool) : Bool :=
  !nextOpen && isActiveState st && !flounceUsed

/-- Component-level state of the drawer subtree: the shared store, the
local `showFlounce` flag, and the sheet `open` prop the parent keeps. -/
structure DrawerUI where
  store : NegotiationStore
  showFlounce : Bool
  sheetOpen : Bool
deriving DecidableEq, Repr

/-- User/network events the drawer subtree reacts to.  `acceptDeal` carries
the outcome of the flounce `sendOffer` call with its two generated
message ids; `response` is a server response applied through
`_applyResponse`; `startSessionBegin` is the synchronous first half of
`startSession` (the part that resets `flounceUsed`). -/
inductive DrawerEvent where
  | openChange (nextOpen : Bool)
  | acceptDeal (api : ApiResult) (buyerId sellerId : String)
  | flounceClose
  | flounceLeave
  | startSessionBegin (productId productName : String)
  | response (res : NegotiationResponse) (isStart : Bool) (msgId : String)
deriving DecidableEq, Repr

/-- The tail of `handleAcceptDeal` in `DigitalFlounce.tsx`, applied to the
result of the awaited `sendOffer`: on a thrown error it toasts and
closes the dialog; otherwise it closes the dialog and marks the flounce
used via `useNegotiationStore.setState` with `flounceUsed: true`. -/
def acceptDealStep (ui : DrawerUI) (out : NegotiationStore × SendOutcome) :
    DrawerUI :=
  match out.2 with
  | .threw _ _ _ => { ui with store := out.1, showFlounce := false }
  | _ => { ui with store := { out.1 with flounceUsed := true }, showFlounce := false }

/-- One step of the drawer subtree; the returned `Bool` is `true` exactly
when this event made the close intercept fire (present the flounce
dialog instead of closing). -/
def drawerStep (ui : DrawerUI) (e : DrawerEvent) : DrawerUI × Bool :=
  match e with
  | .openChange nextOpen =>
      if interceptFires nextOpen ui.store.state ui.store.flounceUsed then
        ({ ui with showFlounce := true }, true)
      else if nextOpen then ({ ui with sheetOpen := true }, false)
      else ({ ui with sheetOpen := false, store := resetStore ui.store }, false)
  | .acceptDeal api buyerId sellerId =>
      (acceptDealStep ui
        (sendOffer ui.store (((walkAwayPrice ui.store : ℤ) : ℚ))
          "Walk-away deal accepted" buyerId sellerId api), false)
  | .flounceClose => ({ ui with showFlounce := false }, false)
  | .flounceLeave =>
      ({ ui with
          showFlounce := false
          sheetOpen := false
          store := resetStore ui.store }, false)
  | .startSessionBegin pid pname =>
      ({ ui with store := { ui.store with
          isLoading := true
          productId := some pid
          productName := pname
          messages := []
          flounceUsed := false
          agreedPrice := none
          state := none } }, false)
  | .response res isStart msgId =>
      ({ ui with store := applyResponse ui.store res isStart msgId }, false)

/-- Events that reset the store (clearing `flounceUsed`): closing the sheet
past the intercept, leaving through the flounce dialog, and starting a
new session. -/
def resetsFlounce : DrawerEvent → Bool
  | .openChange nextOpen => !nextOpen
  | .flounceLeave => true
  | .startSessionBegin _ _ => true
  | _ => false

/-- Run a list of drawer events; the `Bool` records whether the intercept
fired at any step. -/
def runDrawer (ui : DrawerUI) : List DrawerEvent → DrawerUI × Bool
  | [] => (ui, false)
  | e :: es =>
      let step := drawerStep ui e
      let rest := runDrawer step.1 es
      (rest.1, step.2 || rest.2)

/-! ## Helper lemmas -/

/-- Mapping a by-id update over a list that does not contain the id is the
identity. -/
lemma map_update_of_fresh (l : List ChatMessage) (bId : String)
    (g : ChatMessage → ChatMessage) (h : ∀ m ∈ l, m.id ≠ bId) :
    (l.map fun m => if m.id = bId then g m else m) = l := by
  induction l with
  | nil => rfl
  | cons a t ih =>
      simp only [List.map_cons]
      rw [if_neg (h a (List.mem_cons_self a t)),
        ih fun m hm => h m (List.mem_cons_of_mem a hm)]

/-- `_applyResponse` never touches `flounceUsed`. -/
lemma applyResponse_flounceUsed (s : NegotiationStore)
    (res : NegotiationResponse) (isStart : Bool) (msgId : String) :
    (applyResponse s res isStart msgId).flounceUsed = s.flounceUsed := rfl

/-- `sendOffer` never touches `flounceUsed`. -/
lemma sendOffer_flounceUsed (s : NegotiationStore) (price : ℚ)
    (message buyerId sellerId : String) (api : ApiResult) :
    (sendOffer s price message buyerId sellerId api).1.flounceUsed =
      s.flounceUsed := by
  unfold sendOffer
  by_cases hg : (jsTruthy s.sessionId && jsTruthy s.sessionToken) = true
  · rw [if_pos hg]
    cases api <;> rfl
  · rw [if_neg hg]

/-- A `sendOffer` whose HTTP call succeeded never reports a thrown error. -/
lemma sendOffer_ok_not_threw (s : NegotiationStore) (price : ℚ)
    (message buyerId sellerId : String) (res : NegotiationResponse)
    (req : ApiRequest) (st : ℕ) (em : String) :
    (sendOffer s price message buyerId sellerId (.ok res)).2 ≠
      .threw req st em := by
  unfold sendOffer
  by_cases hg : (jsTruthy s.sessionId && jsTruthy s.sessionToken) = true
  · rw [if_pos hg]
    simp
  · rw [if_neg hg]
    simp

/-- `acceptDealStep` leaves `flounceUsed` true: it either sets it or keeps
the (already true) value from the `sendOffer` result. -/
lemma acceptDealStep_flounceUsed (ui : DrawerUI)
    (out : NegotiationStore × SendOutcome) (h : out.1.flounceUsed = true) :
    (acceptDealStep ui out).store.flounceUsed = true := by
  rcases out with ⟨st, o⟩
  cases o with
  | noSession => rfl
  | sent req => rfl
  | threw req code em => exact h

/-- A single drawer step from a state with `flounceUsed = true`, on an event
that does not reset the store, does not fire the intercept and keeps
`flounceUsed = true`. -/
lemma drawerStep_no_reset (ui : DrawerUI) (e : DrawerEvent)
    (h : ui.store.flounceUsed = true) (hr : resetsFlounce e = false) :
    (drawerStep ui e).2 = false ∧
      (drawerStep ui e).1.store.flounceUsed = true := by
  cases e with
  | openChange b =>
      cases b with
      | false => simp [resetsFlounce] at hr
      | true =>
          refine ⟨?_, ?_⟩ <;> simp [drawerStep, interceptFires, h]
  | acceptDeal api bId sId =>
      refine ⟨rfl, ?_⟩
      exact acceptDealStep_flounceUsed ui _ (by rw [sendOffer_flounceUsed]; exact h)
  | flounceClose => exact ⟨rfl, h⟩
  | flounceLeave => simp [resetsFlounce] at hr
  | startSessionBegin pid pname => simp [resetsFlounce] at hr
  | response res isStart msgId =>
      exact ⟨rfl, by rw [show (drawerStep ui (.response res isStart msgId)).1.store =
        applyResponse ui.store res isStart msgId from rfl, applyResponse_flounceUsed]; exact h⟩

/-- Whole-trace version of `drawerStep_no_reset`. -/
lemma runDrawer_no_fire (es : List DrawerEvent) (ui : DrawerUI)
    (h : ui.store.flounceUsed = true)
    (hr : ∀ e ∈ es, resetsFlounce e = false) :
    (runDrawer ui es).2 = false ∧
      (runDrawer ui es).1.store.flounceUsed = true := by
  induction es generalizing ui with
  | nil => exact ⟨rfl, h⟩
  | cons e t ih =>
      have hstep := drawerStep_no_reset ui e h (hr e (List.mem_cons_self e t))
      have hrest := ih (drawerStep ui e).1 hstep.2
        fun x hx => hr x (List.mem_cons_of_mem e hx)
      refine ⟨?_, hrest.2⟩
      show ((drawerStep ui e).2 || (runDrawer (drawerStep ui e).1 t).2) = false
      rw [hstep.1, hrest.1]
      rfl

/-- `_applyResponse` with `isStart = true` stores the response token. -/
lemma applyResponse_token_start (s : NegotiationStore)
    (res : NegotiationResponse) (msgId : String) :
    (applyResponse s res true msgId).sessionToken = some res.session_token := rfl

/-- `_applyResponse` with `isStart = false` preserves the stored token. -/
lemma applyResponse_token_keep (s : NegotiationStore)
    (res : NegotiationResponse) (msgId : String) :
    (applyResponse s res false msgId).sessionToken = s.sessionToken := rfl

/-! ## Theorems -/

/-- C1: The floor price is never revealed to the buyer-facing client: the
`NegotiationResponse` record carries no floor field and the FairnessMeter
is computed solely from `anchor_price`, `currentPrice` and the fixed
`visualFloorPercent`; two sessions differing only in the true
`floor_price` but agreeing on anchor and current price render the same
meter bounds, percentage and zone. -/
theorem floor_never_revealed_to_meter (s1 s2 : BackendSession)
    (ha : s1.anchor_price = s2.anchor_price)
    (hc : s1.current_price = s2.current_price) :
    meterOfSession s1 = meterOfSession s2 := by
  unfold meterOfSession
  rw [ha, hc]

/-- Witness for C1: two concrete sessions with different floors (9450
versus 2) but equal anchor and current price render identically. -/
theorem floor_never_revealed_to_meter_witness :
    ({ anchor_price := 12999, floor_price := 9450, current_price := 11000 } :
        BackendSession).floor_price ≠
      ({ anchor_price := 12999, floor_price := 2, current_price := 11000 } :
        BackendSession).floor_price ∧
    meterOfSession { anchor_price := 12999, floor_price := 9450, current_price := 11000 } =
      meterOfSession { anchor_price := 12999, floor_price := 2, current_price := 11000 } :=
  ⟨by decide, floor_never_revealed_to_meter _ _ rfl rfl⟩

/-- C2: the walk-away offer price is `Math.round(currentPrice * 0.95)` —
the 5% concession applies to the current seller counter-offer and is
independent of the anchor price (changing `anchorPrice` alone never
changes it; concretely, with current 12999 and anchor 20000 the offer is
12349, not 19000). -/
theorem walk_away_price_from_current (s : NegotiationStore) (a : ℚ) :
    walkAwayPrice s = jsRound (s.currentPrice * (95/100)) ∧
    walkAwayPrice { s with anchorPrice := a } = walkAwayPrice s ∧
    walkAwayPrice { initialStore .en with currentPrice := 12999, anchorPrice := 20000 } = 12349 ∧
    jsRound ((20000 : ℚ) * (95/100)) = 19000 := by
  refine ⟨rfl, rfl, ?_, ?_⟩
  · norm_num [walkAwayPrice, jsRound, initialStore]
  · norm_num [jsRound]

/-- C9: the FairnessMeter pointer percentage always lies in [0, 100]; it is
the clamped linear position when the visual range is positive and 50
otherwise; when the current price reaches the anchor the percentage is
exactly 100, which matches the half-open interval of no zone, so the label
falls back to the first zone, "Too Low". -/
theorem fairness_percentage_clamped (a c v : ℚ) :
    0 ≤ fairnessPercentage a c v ∧
    fairnessPercentage a c v ≤ 100 ∧
    (¬ 0 < a - a * v → fairnessPercentage a c v = 50) ∧
    (0 < a - a * v → a ≤ c → fairnessPercentage a c v = 100) ∧
    (ZONES.find? fun z => decide (z.zfrom ≤ (100:ℚ)) && decide ((100:ℚ) < z.zto)) = none ∧
    (activeZone 100).label = "Too Low" := by
  refine ⟨?_, ?_, ?_, ?_, by decide, by decide⟩
  · unfold fairnessPercentage
    dsimp only
    split
    · exact le_max_left 0 _
    · norm_num
  · unfold fairnessPercentage
    dsimp only
    split
    · exact max_le (by norm_num) (min_le_left _ _)
    · norm_num
  · intro h
    unfold fairnessPercentage
    dsimp only
    simp only [if_neg h]
  · intro hr hc
    unfold fairnessPercentage
    dsimp only
    simp only [if_pos hr]
    have hnum : a - a * v ≤ c - a * v := by linarith
    have hdiv : (1 : ℚ) ≤ (c - a * v) / (a - a * v) :=
      (one_le_div hr).mpr hnum
    have h100 : (100 : ℚ) ≤ (c - a * v) / (a - a * v) * 100 := by nlinarith
    rw [min_eq_left h100, max_eq_right (by norm_num)]

/-- C5: when the offer API call throws, the session fields of the store —
sessionId, sessionToken, state, round, currentPrice, agreedPrice,
tactic, maxRounds — are unchanged; the only changes are that the pending
buyer chat message status becomes "error" and `isLoading` becomes
false, and the error (status and message) is re-thrown to the caller. -/
theorem send_offer_error_frame (s : NegotiationStore) (price : ℚ)
    (msg bId sId : String) (code : ℕ) (em : String)
    (hsid : jsTruthy s.sessionId = true) (htok : jsTruthy s.sessionToken = true)
    (hfresh : ∀ m ∈ s.messages, m.id ≠ bId) :
    (sendOffer s price msg bId sId (.err code em)).1.sessionId = s.sessionId ∧
    (sendOffer s price msg bId sId (.err code em)).1.sessionToken = s.sessionToken ∧
    (sendOffer s price msg bId sId (.err code em)).1.state = s.state ∧
    (sendOffer s price msg bId sId (.err code em)).1.round = s.round ∧
    (sendOffer s price msg bId sId (.err code em)).1.currentPrice = s.currentPrice ∧
    (sendOffer s price msg bId sId (.err code em)).1.agreedPrice = s.agreedPrice ∧
    (sendOffer s price msg bId sId (.err code em)).1.tactic = s.tactic ∧
    (sendOffer s price msg bId sId (.err code em)).1.maxRounds = s.maxRounds ∧
    (sendOffer s price msg bId sId (.err code em)).1.isLoading = false ∧
    (sendOffer s price msg bId sId (.err code em)).1.messages =
      s.messages ++ [{ buyerMessage bId price msg with status := .error }] ∧
    (sendOffer s price msg bId sId (.err code em)).2 =
      .threw (apiSendOffer (s.sessionId.getD "") (s.sessionToken.getD "")
        price msg s.language) code em := by
  have hguard : (jsTruthy s.sessionId && jsTruthy s.sessionToken) = true := by
    rw [hsid, htok]; rfl
  unfold sendOffer
  rw [if_pos hguard]
  refine ⟨rfl, rfl, rfl, rfl, rfl, rfl, rfl, rfl, rfl, ?_, rfl⟩
  show (s.messages ++ [buyerMessage bId price msg]).map _ = _
  rw [List.map_append, map_update_of_fresh s.messages bId _ hfresh]
  simp [buyerMessage]

/-- Witness for C5: a live session with one prior message; a 429 error
leaves the session fields alone, flags the pending buyer message as
errored and re-throws. -/
theorem send_offer_error_frame_witness :
    (sendOffer { initialStore .en with
        sessionId := some "abc", sessionToken := some "tok",
        state := some .responding, currentPrice := 12000 }
      9000 "" "b1" "s1" (.err 429 "cooldown")).1.currentPrice = 12000 ∧
    (sendOffer { initialStore .en with
        sessionId := some "abc", sessionToken := some "tok",
        state := some .responding, currentPrice := 12000 }
      9000 "" "b1" "s1" (.err 429 "cooldown")).1.isLoading = false ∧
    (sendOffer { initialStore .en with
        sessionId := some "abc", sessionToken := some "tok",
        state := some .responding, currentPrice := 12000 }
      9000 "" "b1" "s1" (.err 429 "cooldown")).1.messages =
      [{ buyerMessage "b1" 9000 "" with status := .error }] := by
  have h := send_offer_error_frame { initialStore .en with
      sessionId := some "abc", sessionToken := some "tok",
      state := some .responding, currentPrice := 12000 }
    9000 "" "b1" "s1" 429 "cooldown" rfl rfl (by simp [initialStore])
  exact ⟨h.2.2.2.2.1, h.2.2.2.2.2.2.2.2.1, h.2.2.2.2.2.2.2.2.2.1⟩

/-- C6: the walk-away save is one-shot: the close intercept fires only when
the drawer is closing, the session is active and `flounceUsed` is false;
a successfully accepted flounce deal sets `flounceUsed` to true; and
from a state with `flounceUsed = true`, no trace of events avoiding a
store reset ever fires the intercept again. -/
theorem flounce_one_shot :
    (∀ (nextOpen : Bool) (st : Option NegotiationState),
      interceptFires nextOpen st true = false) ∧
    (∀ (nextOpen : Bool) (st : Option NegotiationState) (fl : Bool),
      interceptFires nextOpen st fl = true →
        nextOpen = false ∧ isActiveState st = true ∧ fl = false) ∧
    (∀ (ui : DrawerUI) (res : NegotiationResponse) (bId sId : String),
      (drawerStep ui (.acceptDeal (.ok res) bId sId)).1.store.flounceUsed = true) ∧
    (∀ (ui : DrawerUI) (es : List DrawerEvent),
      ui.store.flounceUsed = true →
      (∀ e ∈ es, resetsFlounce e = false) →
      (runDrawer ui es).2 = false) := by
  refine ⟨?_, ?_, ?_, ?_⟩
  · intro nextOpen st
    simp [interceptFires]
  · intro nextOpen st fl h
    simp only [interceptFires, Bool.and_eq_true, Bool.not_eq_true'] at h
    exact ⟨h.1.1, h.1.2, h.2⟩
  · intro ui res bId sId
    show (acceptDealStep ui _).store.flounceUsed = true
    rcases hout : sendOffer ui.store (((walkAwayPrice ui.store : ℤ) : ℚ))
      "Walk-away deal accepted" bId sId (.ok res) with ⟨st, o⟩
    cases o with
    | noSession => rfl
    | sent req => rfl
    | threw req code em =>
        exact absurd (congrArg Prod.snd hout)
          (sendOffer_ok_not_threw ui.store _ _ bId sId res req code em)
  · intro ui es h hr
    exact (runDrawer_no_fire es ui h hr).1

/-- Witness for C6: with `flounceUsed` already true and an active session,
reopening the drawer and closing the flounce dialog never fires the
intercept. -/
theorem flounce_one_shot_witness :
    (runDrawer
      { store := { initialStore .en with
          flounceUsed := true, state := some .responding }
        showFlounce := false
        sheetOpen := true }
      [.openChange true, .flounceClose]).2 = false :=
  flounce_one_shot.2.2.2 _ _ rfl (by decide)

/-- C7: every offer and status request carries the `X-Session-Token` header
equal to the stored session token; `_applyResponse` stores the response
token only on a start response and preserves the existing token on every
subsequent response (also along any chain of non-start responses). -/
theorem session_token_flow :
    (∀ (s : NegotiationStore) (res : NegotiationResponse) (i : String),
      (applyResponse s res true i).sessionToken = some res.session_token) ∧
    (∀ (s : NegotiationStore) (res : NegotiationResponse) (i : String),
      (applyResponse s res false i).sessionToken = s.sessionToken) ∧
    (∀ (s : NegotiationStore) (l : List (NegotiationResponse × String)),
      (l.foldl (fun st p => applyResponse st p.1 false p.2) s).sessionToken =
        s.sessionToken) ∧
    (∀ (s : NegotiationStore) (price : ℚ) (msg bId sId : String)
        (api : ApiResult) (req : ApiRequest) (code : ℕ) (em : String),
      (sendOffer s price msg bId sId api).2 = .sent req ∨
        (sendOffer s price msg bId sId api).2 = .threw req code em →
      req.headers = [("Content-Type", "application/json"),
        ("X-Session-Token", s.sessionToken.getD "")]) ∧
    (∀ sid tok : String, (apiGetStatus sid tok).headers =
      [("Content-Type", "application/json"), ("X-Session-Token", tok)]) := by
  have hfold : ∀ (l : List (NegotiationResponse × String)) (s : NegotiationStore),
      (l.foldl (fun st p => applyResponse st p.1 false p.2) s).sessionToken =
        s.sessionToken := by
    intro l
    induction l with
    | nil => intro s; rfl
    | cons p t ih =>
        intro s
        rw [List.foldl_cons, ih, applyResponse_token_keep]
  refine ⟨fun s res i => rfl, fun s res i => rfl, fun s l => hfold l s, ?_,
    fun sid tok => rfl⟩
  intro s price msg bId sId api req code em h
  by_cases hg : (jsTruthy s.sessionId && jsTruthy s.sessionToken) = true
  · unfold sendOffer at h
    rw [if_pos hg] at h
    cases api with
    | ok res =>
        dsimp only at h
        rcases h with h | h
        · injection h with h1
          rw [← h1]
          rfl
        · exact SendOutcome.noConfusion h
    | err code2 em2 =>
        dsimp only at h
        rcases h with h | h
        · exact SendOutcome.noConfusion h
        · injection h with h1 h2 h3
          rw [← h1]
          rfl
  · unfold sendOffer at h
    rw [if_neg hg] at h
    rcases h with h | h <;> exact SendOutcome.noConfusion h

/-- Witness for C7: a session with token "tok" sends an offer that fails
with 422; the request it made carried the stored token in the
`X-Session-Token` header. -/
theorem session_token_flow_witness :
    (apiSendOffer "abc" "tok" 100 "" .en).headers =
      [("Content-Type", "application/json"), ("X-Session-Token", "tok")] :=
  session_token_flow.2.2.2.1
    { initialStore .en with sessionId := some "abc", sessionToken := some "tok" }
    100 "" "b1" "s1" (.err 422 "bad") (apiSendOffer "abc" "tok" 100 "" .en)
    422 "bad" (Or.inr rfl)

/-- Witness for C9 at anchor 12999, current 13500, visualFloorPercent 0.6:
the range is positive and current exceeds anchor, so the percentage is
exactly 100 and the fallback zone label is rendered. -/
theorem fairness_percentage_clamped_witness :
    0 ≤ fairnessPercentage 12999 13500 (6/10) ∧
    fairnessPercentage 12999 13500 (6/10) ≤ 100 ∧
    fairnessPercentage 12999 13500 (6/10) = 100 ∧
    (activeZone 100).label = "Too Low" := by
  have h := fairness_percentage_clamped 12999 13500 (6/10)
  exact ⟨h.1, h.2.1, h.2.2.2.1 (by norm_num) (by norm_num), h.2.2.2.2.2⟩

/-- C3: once the session state is `agreed`, `broken` or `timed_out`, the
message input, the price input and the submit button of `PriceInput` are
all disabled, so no further offer can be submitted from the UI. -/
theorem terminal_state_disables_input (isLoading : Bool)
    (st : Option NegotiationState) (priceStr : String)
    (h : st = some .agreed ∨ st = some .broken ∨ st = some .timed_out) :
    (priceInputView isLoading st priceStr).messageInputDisabled = true ∧
    (priceInputView isLoading st priceStr).priceInputDisabled = true ∧
    (priceInputView isLoading st priceStr).submitDisabled = true := by
  rcases h with h | h | h <;> subst h <;> cases isLoading <;>
    simp [priceInputView, isTerminalState]

/-- Witness for C3 at `state = agreed`, not loading, with a non-empty price
string. -/
theorem terminal_state_disables_input_witness :
    (priceInputView false (some .agreed) "9500").messageInputDisabled = true ∧
    (priceInputView false (some .agreed) "9500").priceInputDisabled = true ∧
    (priceInputView false (some .agreed) "9500").submitDisabled = true :=
  terminal_state_disables_input false (some .agreed) "9500" (Or.inl rfl)

/-- C4 counterexample: a non-finite parsed price is not rejected by the
`handleSubmit` guard `isNaN(price) || price <= 0`: for the parsed price
+Infinity (e.g. `parseFloat("1e999")`) the guard is false and
`sendOffer` is invoked, contradicting the claim that every non-finite
parsed price is rejected before a request is sent. -/
theorem nonfinite_price_not_rejected :
    (handleSubmit (initialStore .en) JSNum.posInf).2 = SubmitAction.offer JSNum.posInf ∧
    JSNum.posInf.isNan = false ∧
    (handleSubmit (initialStore .en) JSNum.posInf).2 ≠ SubmitAction.invalidPrice := by
  refine ⟨by decide, by decide, by decide⟩

/-- C4 (amended): if the parsed price is NaN, negative infinity, negative or
zero, `handleSubmit` rejects the offer before any request is sent:
`sendOffer` is not invoked and the store is unchanged.  (Positive
infinity, the one non-finite value the guard misses, is excluded.) -/
theorem invalid_price_rejected (s : NegotiationStore) (p : JSNum)
    (h : p = .nan ∨ p = .negInf ∨ ∃ q : ℚ, q ≤ 0 ∧ p = .finite q) :
    handleSubmit s p = (s, .invalidPrice) := by
  rcases h with h | h | ⟨q, hq, h⟩ <;> subst h
  · rfl
  · rfl
  · simp [handleSubmit, JSNum.isNan, JSNum.le, hq]

/-- Witness for the amended C4 at the parsed price −5 (negative). -/
theorem invalid_price_rejected_witness :
    handleSubmit (initialStore .en) (JSNum.finite (-5)) =
      (initialStore .en, .invalidPrice) :=
  invalid_price_rejected (initialStore .en) (JSNum.finite (-5))
    (Or.inr (Or.inr ⟨-5, by norm_num, rfl⟩))

/-- C8: the selectable languages are exactly {en, hi, ta, te, mr} (every
language is a key of `LANGUAGE_LABELS`, without duplicates and with
distinct codes); `setLanguage l` sets the store language to `l` and
persists `l.code`, which `getPersistedLanguage` returns unchanged on the
client; with nothing persisted, or server-side, the default is "en". -/
theorem language_selection_round_trip :
    (∀ l : Language, l ∈ languageKeys) ∧
    languageKeys.Nodup ∧
    (languageKeys.map Language.code).Nodup ∧
    (∀ (s : NegotiationStore) (l : Language),
      (setLanguage s l).1.language = l ∧
      getPersistedLanguage false (setLanguage s l).2 = l.code) ∧
    (∀ stored : Option String, getPersistedLanguage true stored = "en") ∧
    getPersistedLanguage false none = "en" := by
  refine ⟨fun l => by cases l <;> decide, by decide, by decide,
    fun s l => ⟨rfl, by cases l <;> rfl⟩, fun stored => rfl, rfl⟩

/-- C10: calling the store action `sendOffer` before a session has been started
(`sessionId` or `sessionToken` still `null`) is a complete no-op: no
request is made, no chat message is appended, and the store is returned
unchanged. -/
theorem send_offer_without_session_noop (s : NegotiationStore) (price : ℚ)
    (message buyerId sellerId : String) (api : ApiResult)
    (h : s.sessionId = none ∨ s.sessionToken = none) :
    sendOffer s price message buyerId sellerId api = (s, .noSession) := by
  rcases h with h | h <;> simp [sendOffer, jsTruthy, h]

/-- Witness for C10 on the initial store (both ids `null`). -/
theorem send_offer_without_session_noop_witness :
    sendOffer (initialStore .en) 100 "" "b1" "s1" (.err 500 "boom") =
      (initialStore .en, .noSession) :=
  send_offer_without_session_noop (initialStore .en) 100 "" "b1" "s1"
    (.err 500 "boom") (Or.inl rfl)

end MolBhav
